import Mathlib

/-!
Shallow embedding of the text-overflow / scrollbar-width utilities
(`TextOverflowDetector.js`, `ScrollbarWidthDetector.js`).

Modelling conventions:
* JS numbers are modelled as `ℚ` (the code only adds, subtracts, compares
  and rounds pixel widths); `Math.round` is `jsRound` below.
* The live document is an explicit state (`TextOverflowDetector.DomState`):
  a partial map from node identities to element data, plus the detector's
  cached measurement template, the number of scratch clones currently
  attached to `document.body`, and the contents of the most recent scratch
  node.
* Layout and computed-style queries are an oracle (`Env`): the geometry the
  browser would report, plus flags saying whether a given style/geometry
  query throws (the code wraps them in `try`/`catch`).
* `parseFloat(x) || 0` on a padding is modelled by `Option ℚ` (`none` =
  `NaN`) followed by `getD 0`; JS string truthiness (`""` and `null`
  falsy) is `jsTruthy` / `jsOr`.
-/

/-- Models `Math.round`: round half toward positive infinity. -/
def jsRound (q : ℚ) : ℤ := ⌊q + 1 / 2⌋

/-- Models `a || b` for JS strings: `a` unless `a` is the empty string. -/
def jsOr (a b : String) : String := if a = "" then b else a

/-- Models `x || b` where `x` is a possibly-`null` JS string: `null` and
`""` are falsy. -/
def jsOrOpt (a : Option String) (b : String) : String :=
  match a with
  | some s => if s = "" then b else s
  | none => b

/-- Models JS truthiness of a possibly-`null` string (used by
`if (text)` and `if (rangeResult.error)`). -/
def jsTruthy (a : Option String) : Bool :=
  match a with
  | some s => s != ""
  | none => false

/-- Models `!s.trim()`: true exactly when `s` is empty or whitespace-only
(trimming leaves the empty string). -/
def isBlank (s : String) : Bool := s.data.all Char.isWhitespace

namespace TextOverflowDetector

/-- Data of one rendered element, as the detector reads it: child node
count, `textContent`, `innerText`, `offsetWidth`, the parsed left/right
paddings of its computed style (`none` models `parseFloat` returning
`NaN`), and its computed text styles as a property/value list. -/
structure ElemData where
  childNodesLen : Nat
  textContent : String
  innerText : String
  offsetWidth : ℚ
  paddingLeft : Option ℚ
  paddingRight : Option ℚ
  styles : List (String × String)
deriving DecidableEq

/-- Contents of the scratch measurement node: the styles written onto it by
`_copyTextStyles` and the text written into `textContent`. -/
structure ScratchNode where
  styles : List (String × String)
  text : String
deriving DecidableEq

/-- A `target` argument: a selector string, an element reference (by node
identity), or a value that is neither (fails the `instanceof HTMLElement`
check). -/
inductive Target where
  | sel : String → Target
  | node : Nat → Target
  | other : Target
deriving DecidableEq

/-- The layout/style oracle: what `document.querySelector`,
`range.getBoundingClientRect`, the scratch node's `offsetWidth` and
`window.getComputedStyle` would return, and which of the guarded queries
throw. `copyStylesThrows` models `getComputedStyle` throwing inside
`_copyTextStyles` (before the clone is appended); `postStyleThrows` models
the `getComputedStyle` call of `detectByClone` made after `appendChild`.
`throwMsg` is the thrown error's `.message`; `now` is `Date.now()`. -/
structure Env where
  resolve : String → Option Nat
  rangeWidth : ElemData → ℚ
  rangeThrows : ElemData → Bool
  cloneWidth : ScratchNode → ℚ
  copyStylesThrows : ElemData → Bool
  postStyleThrows : ElemData → Bool
  throwMsg : String
  now : Nat

/-- Mutable document state threaded through the detector: the element
store (node identity to element data), whether the static
`_measureElement` template exists and whether it is attached to the
document, how many scratch clones are currently attached to
`document.body`, and the contents of the most recently written scratch
node. -/
structure DomState where
  elems : Nat → Option ElemData
  template : Bool
  templateAttached : Bool
  attachedClones : Nat
  scratch : Option ScratchNode

/-- Models `_getElement`: selector strings go through
`document.querySelector`, element references are returned as-is (an
identity not present in the document store resolves to nothing), anything
else fails the `instanceof HTMLElement` check. -/
def getElement (env : Env) (st : DomState) : Target → Option ElemData
  | Target.sel s => (env.resolve s).bind st.elems
  | Target.node k => st.elems k
  | Target.other => none

/-- The result object built by `_createResult`; detail fields absent on
the error paths are `none`. -/
structure Result where
  isOverflowing : Bool
  error : Option String
  textWidth : Option ℚ
  containerWidth : Option ℚ
  availableWidth : Option ℚ
  overflowAmount : Option ℚ
  textLength : Option Nat
  timestamp : Nat
deriving DecidableEq

/-- Models `_createResult(isOverflowing, error, details)`. -/
def createResult (isOv : Bool) (err : Option String) (tw cw aw oa : Option ℚ)
    (tl : Option Nat) (now : Nat) : Result :=
  { isOverflowing := isOv, error := err, textWidth := tw, containerWidth := cw,
    availableWidth := aw, overflowAmount := oa, textLength := tl, timestamp := now }

/-- Models `_createResult(false, message)` with no details. -/
def errResult (msg : String) (now : Nat) : Result :=
  createResult false (some msg) none none none none none now

/-- The property names copied by `_copyTextStyles`. -/
def textStyleProps : List String :=
  ["font-family", "font-size", "font-weight", "font-style",
   "letter-spacing", "word-spacing", "text-transform"]

/-- Models `_copyTextStyles(source, target)`: the style writes it performs
on the scratch node, read from the source's computed style. -/
def copyTextStyles (el : ElemData) : List (String × String) :=
  textStyleProps.map (fun p => (p, (el.styles.lookup p).getD ""))

/-- The text measured by `detectByClone`:
`text || element.textContent || element.innerText`. -/
def testTextOf (el : ElemData) (text : Option String) : String :=
  jsOrOpt text (jsOr el.textContent el.innerText)

/-- The scratch node as `detectByClone` fills it in: copied text styles
plus the test text. -/
def cloneScratch (el : ElemData) (text : Option String) : ScratchNode :=
  { styles := copyTextStyles el, text := testTextOf el text }

/-- Models the `catch` block of `detectByClone`: it removes
`this._measureElement` (the cached template) from `document.body` when
that template exists and has a parent — it does not touch the appended
clone. -/
def catchCleanup (st : DomState) : DomState :=
  if st.template && st.templateAttached then { st with templateAttached := false } else st

/-- Models `detectByRange(target)`: range over all child nodes, compare
the range's bounding-box width against `offsetWidth` minus horizontal
paddings. It never mutates the document, so it returns only a `Result`. -/
def detectByRange (env : Env) (st : DomState) (target : Target) : Result :=
  match getElement env st target with
  | none => errResult "Element not found" env.now
  | some el =>
    if el.childNodesLen = 0 then errResult "No text content" env.now
    else if env.rangeThrows el then
      errResult ("Range detection failed: " ++ env.throwMsg) env.now
    else
      let textWidth := env.rangeWidth el
      let containerWidth := el.offsetWidth
      let paddingLeft := el.paddingLeft.getD 0
      let paddingRight := el.paddingRight.getD 0
      let availableWidth := containerWidth - paddingLeft - paddingRight
      let isOverflowing := decide (availableWidth < textWidth)
      let overflowAmount := max 0 (textWidth - availableWidth)
      createResult isOverflowing none (some ((jsRound textWidth : ℤ) : ℚ))
        (some containerWidth) (some ((jsRound availableWidth : ℤ) : ℚ))
        (some ((jsRound overflowAmount : ℤ) : ℚ)) none env.now

/-- Models `detectByClone(target, text)`: ensure the template exists
(`_getMeasureElement`), write styles and text onto a fresh clone, append
the clone to `document.body`, measure, remove it, and build the result;
if a guarded query throws, run the `catch` block (`catchCleanup`) and
return an error result. -/
def detectByClone (env : Env) (st : DomState) (target : Target)
    (text : Option String) : Result × DomState :=
  match getElement env st target with
  | none => (errResult "Element not found" env.now, st)
  | some el =>
    let testText := testTextOf el text
    if isBlank testText then (errResult "No text content" env.now, st)
    else
      let st1 : DomState := { st with template := true }
      if env.copyStylesThrows el then
        (errResult ("Clone detection failed: " ++ env.throwMsg) env.now, catchCleanup st1)
      else
        let scr : ScratchNode := cloneScratch el text
        let st2 : DomState :=
          { st1 with scratch := some scr, attachedClones := st1.attachedClones + 1 }
        if env.postStyleThrows el then
          (errResult ("Clone detection failed: " ++ env.throwMsg) env.now, catchCleanup st2)
        else
          let textWidth := env.cloneWidth scr
          let containerWidth := el.offsetWidth
          let paddingLeft := el.paddingLeft.getD 0
          let paddingRight := el.paddingRight.getD 0
          let availableWidth := containerWidth - paddingLeft - paddingRight
          let isOverflowing := decide (availableWidth < textWidth)
          let overflowAmount := max 0 (textWidth - availableWidth)
          let st3 : DomState := { st2 with attachedClones := st2.attachedClones - 1 }
          (createResult isOverflowing none (some textWidth) (some containerWidth)
            (some ((jsRound availableWidth : ℤ) : ℚ))
            (some ((jsRound overflowAmount : ℤ) : ℚ))
            (some testText.length) env.now, st3)

/-- Models `detect(target, text)`: truthy `text` dispatches to the clone
strategy; otherwise the range strategy runs first and the clone strategy
is the fallback when the range result's `error` is truthy. -/
def detect (env : Env) (st : DomState) (target : Target)
    (text : Option String) : Result × DomState :=
  if jsTruthy text then detectByClone env st target text
  else
    let rangeResult := detectByRange env st target
    if jsTruthy rangeResult.error then detectByClone env st target none
    else (rangeResult, st)

/-- Models `detectMultiple(targets)`: `targets.map(t => this.detect(t))`,
with the document state threaded left to right as JS evaluation does. -/
def detectMultiple (env : Env) : DomState → List Target → List Result × DomState
  | st, [] => ([], st)
  | st, t :: ts =>
    let p := detect env st t none
    let q := detectMultiple env p.2 ts
    (p.1 :: q.1, q.2)

/-!
Timer semantics for `observe`.

`observe` resolves the target (throwing on failure), builds
`debouncedCallback` — `clearTimeout(timeoutId); timeoutId = setTimeout(run,
debounce)` — runs it once when `immediate` is set, and returns a
`MutationObserver` wired to run it on every observed mutation.  We model
the single cooperative timer and the callback invocations as a small state
machine over discrete time (subscription happens at time 0):

* `OState.pending` is the fire time of the scheduled timeout, if any
  (`debouncedCallback` at time `t` overwrites it with `t + debounce`);
* `OState.fires` lists the times at which the timeout ran, i.e. at which
  `detect` was re-run and `callback(result, element)` invoked;
* `OState.active` is whether the `MutationObserver` is still connected —
  `disconnect()` clears it, and a mutation reaching a disconnected
  observer does nothing; `disconnect()` does NOT touch the pending
  `setTimeout`.

External events (`OEvent`) are processed in time order; before an event at
time `t` is handled, a pending timeout due at or before `t` fires.  At the
end of a run, `flush` fires whatever timeout is still pending (time keeps
flowing after the last event). -/

/-- An external event for an `observe` subscription: a DOM mutation
delivered at time `t`, or `observer.disconnect()` called at time `t`. -/
inductive OEvent where
  | mutation : Nat → OEvent
  | disconnect : Nat → OEvent
deriving DecidableEq

/-- Timer-machine state of one `observe` subscription. -/
structure OState where
  pending : Option Nat
  fires : List Nat
  active : Bool
deriving DecidableEq

/-- Fire the pending timeout if it is due at or before time `t`. -/
def fireDue (t : Nat) (s : OState) : OState :=
  match s.pending with
  | some p => if p ≤ t then { pending := none, fires := s.fires ++ [p], active := s.active } else s
  | none => s

/-- Process one external event: a mutation runs `debouncedCallback`
(clear + reschedule at `t + debounce`) when the observer is connected;
`disconnect()` only clears the connected flag. -/
def stepEv (debounce : Nat) (s : OState) (e : OEvent) : OState :=
  match e with
  | OEvent.mutation t =>
    let s1 := fireDue t s
    if s1.active then { s1 with pending := some (t + debounce) } else s1
  | OEvent.disconnect t =>
    let s1 := fireDue t s
    { s1 with active := false }

/-- At the end of a run, a still-pending timeout fires. -/
def flush (s : OState) : OState :=
  match s.pending with
  | some p => { pending := none, fires := s.fires ++ [p], active := s.active }
  | none => s

/-- The callback invocation times of a subscription started in state `s`
after the events `evs` (in time order) and the passage of time. -/
def observeRun (s : OState) (debounce : Nat) (evs : List OEvent) : List Nat :=
  (flush (evs.foldl (stepEv debounce) s)).fires

/-- State of a subscription right as `observe` returns (subscription time
is 0): when `immediate` is set, `debouncedCallback()` has run once, which
only schedules the timeout for time `debounce` — no detection has been
performed yet. -/
def initState (immediate : Bool) (debounce : Nat) : OState :=
  { pending := if immediate then some debounce else none, fires := [], active := true }

/-- Models `observe(target, callback, { immediate, debounce })`: throws
(`Except.error`) when the target does not resolve; otherwise returns the
subscription state at time 0. -/
def observe (env : Env) (st : DomState) (target : Target)
    (immediate : Bool) (debounce : Nat) : Except String OState :=
  match getElement env st target with
  | none => Except.error "Element not found"
  | some _ => Except.ok (initState immediate debounce)

/-- Nondecreasing time stamps, starting no earlier than `prev`. -/
def sortedFrom : Nat → List Nat → Bool
  | _, [] => true
  | prev, t :: ts => decide (prev ≤ t) && sortedFrom t ts

/-- A burst: nondecreasing time stamps, each closer than `d` to the one
before it. -/
def burstGaps (d : Nat) : Nat → List Nat → Bool
  | _, [] => true
  | prev, t :: ts => decide (prev ≤ t) && decide (t < prev + d) && burstGaps d t ts

/-- Last element of `prev :: ts`. -/
def lastD : Nat → List Nat → Nat
  | prev, [] => prev
  | _, t :: ts => lastD t ts

/-- A concrete rendered element: one child node, text `"hello"`, a 100px
wide box with no horizontal padding. -/
def elA : ElemData :=
  { childNodesLen := 1, textContent := "hello", innerText := "hello",
    offsetWidth := 100, paddingLeft := some 0, paddingRight := some 0,
    styles := [("font-size", "14px")] }

/-- A concrete layout oracle where nothing throws: the range measures the
live text at 50px and the scratch clone measures at 200px. -/
def envA : Env :=
  { resolve := fun _ => none, rangeWidth := fun _ => 50,
    rangeThrows := fun _ => false, cloneWidth := fun _ => 200,
    copyStylesThrows := fun _ => false, postStyleThrows := fun _ => false,
    throwMsg := "boom", now := 7 }

/-- Like `envA` but both strategies measure the text at 150px (wider than
the 100px box). -/
def envB : Env := { envA with rangeWidth := fun _ => 150, cloneWidth := fun _ => 150 }

/-- Like `envA` but the `getComputedStyle` call made after the scratch
clone is appended throws. -/
def envLeak : Env := { envA with postStyleThrows := fun _ => true }

/-- A concrete document: node 0 is `elA`, nothing else exists, no
template, no attached scratch node. -/
def stA : DomState :=
  { elems := fun k => if k = 0 then some elA else none,
    template := false, templateAttached := false, attachedClones := 0, scratch := none }

end TextOverflowDetector

namespace ScrollbarWidthDetector

/-- Geometry oracle for one `_measureScrollbarWidth` run: the outer test
container's `offsetWidth` before `overflow: scroll` is applied, and the
inner container's `offsetWidth` afterwards. -/
structure Env where
  outerOffsetWidth : ℤ
  innerOffsetWidth : ℤ
deriving DecidableEq

/-- The detector's static state: the cached scrollbar width
(`_cachedWidth`), `null` before the first cached measurement. -/
structure SBState where
  cachedWidth : Option ℤ
deriving DecidableEq

/-- Models `_measureScrollbarWidth()`: outer width without a scrollbar
minus inner width with one, clamped to be non-negative
(`Math.max(0, scrollbarWidth)`). -/
def measureScrollbarWidth (env : Env) : ℤ :=
  max 0 (env.outerOffsetWidth - env.innerOffsetWidth)

/-- Models `getWidth(useCache)`.  Returns the width, the new static state,
and whether `_measureScrollbarWidth` actually ran (the cache hit path
returns without measuring). -/
def getWidth (env : Env) (useCache : Bool) (st : SBState) : ℤ × SBState × Bool :=
  if useCache then
    match st.cachedWidth with
    | some w => (w, st, false)
    | none =>
      let w := measureScrollbarWidth env
      (w, { cachedWidth := some w }, true)
  else
    (measureScrollbarWidth env, st, true)

/-- Models `clearCache()`. -/
def clearCache (_st : SBState) : SBState := { cachedWidth := none }

/-- A concrete measurement where the scrollbar takes 17px. -/
def envS1 : Env := { outerOffsetWidth := 100, innerOffsetWidth := 83 }

/-- A concrete measurement where the scrollbar takes no space (overlay
scrollbars). -/
def envS2 : Env := { outerOffsetWidth := 100, innerOffsetWidth := 100 }

/-- The detector's static state before any cached measurement. -/
def stS : SBState := { cachedWidth := none }

end ScrollbarWidthDetector

/-!
Theorems. First the timer machine of `observe` (claims about debouncing,
immediate mode and cancellation), then the measurement functions, then the
scrollbar-width cache.
-/

namespace TextOverflowDetector

theorem fireDue_active (t : Nat) (s : OState) : (fireDue t s).active = s.active := by
  obtain ⟨p, fs, a⟩ := s
  cases p with
  | none => rfl
  | some p => by_cases h : p ≤ t <;> simp [fireDue, h]

theorem stepEv_active_false (d : Nat) (s : OState) (e : OEvent) (h : s.active = false) :
    (stepEv d s e).active = false := by
  cases e with
  | mutation t =>
    have ha : (fireDue t s).active = false := (fireDue_active t s).trans h
    simp [stepEv, ha]
  | disconnect t => rfl

theorem flush_fires_fireDue (t : Nat) (s : OState) :
    (flush (fireDue t s)).fires = (flush s).fires := by
  obtain ⟨p, fs, a⟩ := s
  cases p with
  | none => rfl
  | some p => by_cases h : p ≤ t <;> simp [fireDue, flush, h]

theorem flush_fires_step_inactive (d : Nat) (s : OState) (e : OEvent) (h : s.active = false) :
    (flush (stepEv d s e)).fires = (flush s).fires := by
  cases e with
  | mutation t =>
    have ha : (fireDue t s).active = false := (fireDue_active t s).trans h
    calc (flush (stepEv d s (OEvent.mutation t))).fires
        = (flush (fireDue t s)).fires := by simp [stepEv, ha]
      _ = (flush s).fires := flush_fires_fireDue t s
  | disconnect t =>
    have h1 : (flush { fireDue t s with active := false }).fires
        = (flush (fireDue t s)).fires := by
      obtain ⟨p, fs, a⟩ := fireDue t s
      cases p <;> rfl
    calc (flush (stepEv d s (OEvent.disconnect t))).fires
        = (flush { fireDue t s with active := false }).fires := rfl
      _ = (flush (fireDue t s)).fires := h1
      _ = (flush s).fires := flush_fires_fireDue t s

theorem foldl_inactive_fires (d : Nat) (evs : List OEvent) :
    ∀ s : OState, s.active = false →
      (flush (evs.foldl (stepEv d) s)).fires = (flush s).fires := by
  induction evs with
  | nil => intro s _; rfl
  | cons e evs ih =>
    intro s h
    have h2 : (stepEv d s e).active = false := stepEv_active_false d s e h
    calc (flush ((e :: evs).foldl (stepEv d) s)).fires
        = (flush (evs.foldl (stepEv d) (stepEv d s e))).fires := rfl
      _ = (flush (stepEv d s e)).fires := ih (stepEv d s e) h2
      _ = (flush s).fires := flush_fires_step_inactive d s e h

end TextOverflowDetector

namespace TextOverflowDetector

/-- Claim C3 (corrected), amended part: cancelling the subscription
(`observer.disconnect()` at time `c`) stops the mutation observer, so any
events delivered after it leave the callback trace unchanged — no new
callbacks are ever scheduled after cancellation.  (The pending debounce
timer is NOT cleared: see the counterexample.) -/
theorem observe_cancel_stops_future (imm : Bool) (d : Nat) (pre : List OEvent)
    (c : Nat) (rest : List OEvent) :
    observeRun (initState imm d) d (pre ++ OEvent.disconnect c :: rest) =
      observeRun (initState imm d) d (pre ++ [OEvent.disconnect c]) := by
  unfold observeRun
  rw [List.foldl_append, List.foldl_append]
  simp only [List.foldl_cons, List.foldl_nil]
  exact foldl_inactive_fires d rest _ rfl

/-- Claim C3 counterexample: with `debounce = 100`, a mutation at t=0 arms
the timer for t=100; `disconnect()` at t=50 does not clear that pending
`setTimeout`, so the callback still fires at t=100 — the claim says no
callback is ever invoked after cancellation, i.e. the trace should be
`[]`. -/
theorem observe_cancel_pending_cex :
    observeRun (initState false 100) 100
      [OEvent.mutation 0, OEvent.disconnect 50] = [100] ∧
    observeRun (initState false 100) 100
      [OEvent.mutation 0, OEvent.disconnect 50] ≠ [] := by
  exact ⟨by decide, by decide⟩

theorem burst_foldl (d : Nat) :
    ∀ (ts : List Nat) (prev : Nat) (fs : List Nat), burstGaps d prev ts = true →
      (ts.map OEvent.mutation).foldl (stepEv d)
          { pending := some (prev + d), fires := fs, active := true } =
        { pending := some (lastD prev ts + d), fires := fs, active := true } := by
  intro ts
  induction ts with
  | nil => intro prev fs _; rfl
  | cons t ts ih =>
    intro prev fs h
    simp only [burstGaps, Bool.and_eq_true, decide_eq_true_eq] at h
    obtain ⟨⟨h1, h2⟩, h3⟩ := h
    have hstep : stepEv d { pending := some (prev + d), fires := fs, active := true }
        (OEvent.mutation t) = { pending := some (t + d), fires := fs, active := true } := by
      simp [stepEv, fireDue, Nat.not_le.mpr h2]
    simp only [List.map_cons, List.foldl_cons, hstep]
    exact ih t fs h3

/-- Claim C4: for an `observe` subscription (target resolvable,
`immediate=false`, debounce `d`), a burst of mutations each arriving
within `d` of the previous one produces exactly one callback, fired `d`
after the last mutation of the burst. -/
theorem observe_debounce_burst (env : Env) (st : DomState) (target : Target)
    (d t : Nat) (ts : List Nat)
    (hfound : (getElement env st target).isSome = true)
    (hb : burstGaps d t ts = true) :
    observe env st target false d = Except.ok (initState false d) ∧
    observeRun (initState false d) d ((t :: ts).map OEvent.mutation) = [lastD t ts + d] := by
  constructor
  · unfold observe
    cases hx : getElement env st target with
    | none => rw [hx] at hfound; simp at hfound
    | some el => rfl
  · unfold observeRun
    have hstep : stepEv d (initState false d) (OEvent.mutation t) =
        { pending := some (t + d), fires := [], active := true } := by
      simp [stepEv, fireDue, initState]
    simp only [List.map_cons, List.foldl_cons, hstep]
    rw [burst_foldl d ts t [] hb]
    rfl

/-- Witness for C4: three mutations at t=0, 10, 20 with `debounce=100`
give exactly one callback, at t=120 (100ms after the last mutation). -/
theorem observe_debounce_burst_witness :
    (getElement envA stA (Target.node 0)).isSome = true ∧
    burstGaps 100 0 [10, 20] = true ∧
    observeRun (initState false 100) 100
      ([0, 10, 20].map OEvent.mutation) = [120] := by
  refine ⟨rfl, by decide, ?_⟩
  exact (observe_debounce_burst envA stA (Target.node 0) 100 0 [10, 20] rfl (by decide)).2

end TextOverflowDetector

namespace TextOverflowDetector

theorem bound_fireDue (b t : Nat) (s : OState)
    (hf : ∀ x ∈ s.fires, b ≤ x) (hp : ∀ p, s.pending = some p → b ≤ p) :
    (∀ x ∈ (fireDue t s).fires, b ≤ x) ∧
    (∀ p, (fireDue t s).pending = some p → b ≤ p) := by
  obtain ⟨pd, fs, a⟩ := s
  cases pd with
  | none => exact ⟨hf, hp⟩
  | some p =>
    by_cases h : p ≤ t
    · simp only [fireDue, h, if_pos]
      constructor
      · intro x hx
        rcases List.mem_append.mp hx with hx1 | hx2
        · exact hf x hx1
        · rw [List.mem_singleton.mp hx2]; exact hp p rfl
      · intro q hq; simp at hq
    · simp only [fireDue, h, if_neg, not_false_eq_true]
      exact ⟨hf, hp⟩

theorem bound_step (d b t : Nat) (s : OState) (hb : b ≤ t + d)
    (hf : ∀ x ∈ s.fires, b ≤ x) (hp : ∀ p, s.pending = some p → b ≤ p) :
    (∀ x ∈ (stepEv d s (OEvent.mutation t)).fires, b ≤ x) ∧
    (∀ p, (stepEv d s (OEvent.mutation t)).pending = some p → b ≤ p) := by
  obtain ⟨hf1, hp1⟩ := bound_fireDue b t s hf hp
  unfold stepEv
  by_cases h : (fireDue t s).active = true
  · simp only [h, if_pos]
    refine ⟨hf1, ?_⟩
    intro p hpp
    have hpd : t + d = p := by simpa using hpp
    rw [← hpd]; exact hb
  · simp only [Bool.not_eq_true] at h
    simp only [h, Bool.false_eq_true, if_false]
    exact ⟨hf1, hp1⟩

theorem bound_flush (b : Nat) (s : OState)
    (hf : ∀ x ∈ s.fires, b ≤ x) (hp : ∀ p, s.pending = some p → b ≤ p) :
    ∀ x ∈ (flush s).fires, b ≤ x := by
  obtain ⟨pd, fs, a⟩ := s
  cases pd with
  | none => exact hf
  | some p =>
    intro x hx
    simp only [flush] at hx
    rcases List.mem_append.mp hx with hx1 | hx2
    · exact hf x hx1
    · rw [List.mem_singleton.mp hx2]; exact hp p rfl

theorem run_lower (d t0 : Nat) :
    ∀ (ts : List Nat) (prev : Nat) (s : OState), t0 ≤ prev → sortedFrom prev ts = true →
      (∀ x ∈ s.fires, t0 + d ≤ x) → (∀ p, s.pending = some p → t0 + d ≤ p) →
      ∀ x ∈ observeRun s d (ts.map OEvent.mutation), t0 + d ≤ x := by
  intro ts
  induction ts with
  | nil =>
    intro prev s _ _ hf hp
    exact bound_flush (t0 + d) s hf hp
  | cons t ts ih =>
    intro prev s hle hsorted hf hp
    simp only [sortedFrom, Bool.and_eq_true, decide_eq_true_eq] at hsorted
    obtain ⟨h1, h2⟩ := hsorted
    have hb : t0 + d ≤ t + d := Nat.add_le_add_right (hle.trans h1) d
    obtain ⟨hf2, hp2⟩ := bound_step d (t0 + d) t s hb hf hp
    intro x hx
    simp only [List.map_cons] at hx
    exact ih t (stepEv d s (OEvent.mutation t)) (hle.trans h1) h2 hf2 hp2 x hx

/-- Claim C2 (corrected): `observe` with `immediate=true` does not invoke
any detection synchronously — it runs `debouncedCallback()` once, which
only schedules the detection for `debounce` after subscription (time 0),
so the subscription state it returns has an empty invocation trace and
one pending timer; with no mutations that detection then fires exactly
once, at time `debounce`.  With `immediate=false` nothing is pending at
subscription, no callback ever fires without a mutation, and every
callback fires at or after (first mutation time) + debounce — so never
before the first mutation. -/
theorem observe_immediate_schedules (env : Env) (st : DomState) (target : Target)
    (d : Nat) (hfound : (getElement env st target).isSome = true) :
    observe env st target true d = Except.ok (initState true d) ∧
    (initState true d).fires = [] ∧
    (initState true d).pending = some d ∧
    observeRun (initState true d) d [] = [d] ∧
    observe env st target false d = Except.ok (initState false d) ∧
    observeRun (initState false d) d [] = [] ∧
    (∀ t ts, sortedFrom t ts = true →
      ∀ x ∈ observeRun (initState false d) d ((t :: ts).map OEvent.mutation), t + d ≤ x) := by
  have hobs : ∀ imm, observe env st target imm d = Except.ok (initState imm d) := by
    intro imm
    unfold observe
    cases hx : getElement env st target with
    | none => rw [hx] at hfound; simp at hfound
    | some el => rfl
  refine ⟨hobs true, rfl, rfl, rfl, hobs false, rfl, ?_⟩
  intro t ts hs x hx
  have hsorted : sortedFrom t (t :: ts) = true := by
    simp only [sortedFrom, Bool.and_eq_true, decide_eq_true_eq]
    exact ⟨le_refl t, hs⟩
  refine run_lower d t (t :: ts) t (initState false d) (le_refl t) hsorted ?_ ?_ x hx
  · intro y hy; simp [initState] at hy
  · intro p hp; simp [initState] at hp

/-- Witness for C2: at a resolvable target with `debounce=100`, the
subscription is returned with an empty trace and, with no mutations, the
scheduled immediate detection fires once at t=100. -/
theorem observe_immediate_schedules_witness :
    (getElement envA stA (Target.node 0)).isSome = true ∧
    observeRun (initState true 100) 100 [] = [100] := by
  exact ⟨rfl, (observe_immediate_schedules envA stA (Target.node 0) 100 rfl).2.2.2.1⟩

/-- Claim C2 counterexample: with `immediate=true` and `debounce=100`, the
state returned by `observe` records zero callback invocations — no
detection has been performed synchronously at subscription time (the
claim says exactly one) — and when a mutation arrives at t=50 the single
detection fires at t=150, i.e. after that mutation, not before it. -/
theorem observe_not_sync_cex :
    observe envA stA (Target.node 0) true 100 = Except.ok (initState true 100) ∧
    (initState true 100).fires.length = 0 ∧
    observeRun (initState true 100) 100 [OEvent.mutation 50] = [150] := by
  exact ⟨rfl, rfl, by decide⟩

end TextOverflowDetector

namespace TextOverflowDetector

theorem getElement_congr (env : Env) {st1 st2 : DomState} (h : st1.elems = st2.elems)
    (target : Target) : getElement env st1 target = getElement env st2 target := by
  cases target <;> simp [getElement, h]

theorem detectByClone_elems (env : Env) (st : DomState) (target : Target)
    (text : Option String) : (detectByClone env st target text).2.elems = st.elems := by
  unfold detectByClone
  cases hx : getElement env st target with
  | none => rfl
  | some el =>
    simp only []
    split_ifs <;> simp [catchCleanup] <;> split_ifs <;> rfl

theorem detect_elems (env : Env) (st : DomState) (target : Target)
    (text : Option String) : (detect env st target text).2.elems = st.elems := by
  unfold detect
  by_cases h1 : jsTruthy text = true
  · simp only [h1, if_pos]
    exact detectByClone_elems env st target text
  · simp only [h1, Bool.false_eq_true, if_false]
    by_cases h2 : jsTruthy (detectByRange env st target).error = true
    · simp only [h2, if_pos]
      exact detectByClone_elems env st target none
    · simp only [h2, Bool.false_eq_true, if_false]

theorem detectByRange_congr (env : Env) {st1 st2 : DomState} (h : st1.elems = st2.elems)
    (target : Target) : detectByRange env st1 target = detectByRange env st2 target := by
  unfold detectByRange
  rw [getElement_congr env h target]

theorem detectByClone_fst_congr (env : Env) {st1 st2 : DomState} (h : st1.elems = st2.elems)
    (target : Target) (text : Option String) :
    (detectByClone env st1 target text).1 = (detectByClone env st2 target text).1 := by
  unfold detectByClone
  rw [getElement_congr env h target]
  cases getElement env st2 target with
  | none => rfl
  | some el =>
    simp only []
    split_ifs <;> rfl

theorem detect_fst_congr (env : Env) {st1 st2 : DomState} (h : st1.elems = st2.elems)
    (target : Target) (text : Option String) :
    (detect env st1 target text).1 = (detect env st2 target text).1 := by
  unfold detect
  rw [detectByRange_congr env h target]
  by_cases h1 : jsTruthy text = true
  · simp only [h1, if_pos]
    exact detectByClone_fst_congr env h target text
  · simp only [h1, Bool.false_eq_true, if_false]
    by_cases h2 : jsTruthy (detectByRange env st2 target).error = true
    · simp only [h2, if_pos]
      exact detectByClone_fst_congr env h target none
    · simp only [h2, Bool.false_eq_true, if_false]

theorem detectMultiple_fst (env : Env) (st : DomState) (targets : List Target) :
    (detectMultiple env st targets).1 = targets.map (fun t => (detect env st t none).1) := by
  induction targets generalizing st with
  | nil => rfl
  | cons t ts ih =>
    simp only [detectMultiple, List.map_cons]
    rw [ih]
    congr 1
    apply List.map_congr_left
    intro u _
    exact detect_fst_congr env (detect_elems env st t none) u none

/-- Claim C8: `detectMultiple` returns exactly one result per target, in
input order, and each result is what `detect` returns for that target
alone against the same document — so one target's failure cannot change
or suppress another target's result. -/
theorem detectMultiple_independent (env : Env) (st : DomState) (targets : List Target) :
    (detectMultiple env st targets).1 = targets.map (fun t => (detect env st t none).1) ∧
    (detectMultiple env st targets).1.length = targets.length := by
  refine ⟨detectMultiple_fst env st targets, ?_⟩
  rw [detectMultiple_fst env st targets, List.length_map]

/-- Claim C9: `detect` with an explicit text override (and likewise
`detectByClone` itself) never mutates any element of the document: the
element store — every element's text, children and computed style — is
unchanged by the call.  The override text and the copied styles are
written only to the scratch node (`DomState.scratch`). -/
theorem detect_override_no_target_mutation (env : Env) (st : DomState) (target : Target)
    (s : String) :
    (detect env st target (some s)).2.elems = st.elems ∧
    (detectByClone env st target (some s)).2.elems = st.elems := by
  exact ⟨detect_elems env st target (some s), detectByClone_elems env st target (some s)⟩

end TextOverflowDetector

theorem str_append_ne_empty (a b : String) (h : a.data ≠ []) : a ++ b ≠ "" := by
  intro hc
  apply h
  have hd : (a ++ b).data = ("" : String).data := congrArg String.data hc
  rw [String.data_append] at hd
  exact (List.append_eq_nil.mp hd).1

theorem jsRound_nonneg (q : ℚ) (h : 0 ≤ q) : 0 ≤ jsRound q := by
  unfold jsRound
  exact Int.le_floor.mpr (by push_cast; linarith)

theorem jsRound_zero : jsRound 0 = 0 := by
  unfold jsRound
  rw [Int.floor_eq_iff]
  norm_num

namespace TextOverflowDetector

theorem detectByRange_wf (env : Env) (st : DomState) (target : Target) :
    ((detectByRange env st target).error.isSome = true →
      (detectByRange env st target).isOverflowing = false) ∧
    (∀ e, (detectByRange env st target).error = some e → e ≠ "") := by
  unfold detectByRange
  cases hx : getElement env st target with
  | none =>
    refine ⟨fun _ => rfl, fun e he => ?_⟩
    have h2 : "Element not found" = e := by simpa [errResult, createResult] using he
    rw [← h2]; decide
  | some el =>
    simp only []
    split_ifs with h1 h2
    · refine ⟨fun _ => rfl, fun e he => ?_⟩
      have h3 : "No text content" = e := by simpa [errResult, createResult] using he
      rw [← h3]; decide
    · refine ⟨fun _ => rfl, fun e he => ?_⟩
      have h3 : ("Range detection failed: " ++ env.throwMsg) = e := by
        simpa [errResult, createResult] using he
      rw [← h3]
      exact str_append_ne_empty _ _ (by decide)
    · refine ⟨fun hco => ?_, fun e he => ?_⟩
      · simp [createResult] at hco
      · simp [createResult] at he

theorem detectByClone_wf (env : Env) (st : DomState) (target : Target) (text : Option String) :
    (((detectByClone env st target text).1.error.isSome = true →
      (detectByClone env st target text).1.isOverflowing = false)) ∧
    (∀ e, (detectByClone env st target text).1.error = some e → e ≠ "") := by
  unfold detectByClone
  cases hx : getElement env st target with
  | none =>
    refine ⟨fun _ => rfl, fun e he => ?_⟩
    have h2 : "Element not found" = e := by simpa [errResult, createResult] using he
    rw [← h2]; decide
  | some el =>
    simp only []
    split_ifs with h1 h2 h3
    · refine ⟨fun _ => rfl, fun e he => ?_⟩
      have h4 : "No text content" = e := by simpa [errResult, createResult] using he
      rw [← h4]; decide
    · refine ⟨fun _ => rfl, fun e he => ?_⟩
      have h4 : ("Clone detection failed: " ++ env.throwMsg) = e := by
        simpa [errResult, createResult] using he
      rw [← h4]
      exact str_append_ne_empty _ _ (by decide)
    · refine ⟨fun _ => rfl, fun e he => ?_⟩
      have h4 : ("Clone detection failed: " ++ env.throwMsg) = e := by
        simpa [errResult, createResult] using he
      rw [← h4]
      exact str_append_ne_empty _ _ (by decide)
    · refine ⟨fun hco => ?_, fun e he => ?_⟩
      · simp [createResult] at hco
      · simp [createResult] at he

theorem detect_wf (env : Env) (st : DomState) (target : Target) (text : Option String) :
    ((detect env st target text).1.error.isSome = true →
      (detect env st target text).1.isOverflowing = false) ∧
    (∀ e, (detect env st target text).1.error = some e → e ≠ "") := by
  unfold detect
  by_cases h1 : jsTruthy text = true
  · simp only [h1, if_pos]
    exact detectByClone_wf env st target text
  · simp only [h1, Bool.false_eq_true, if_false]
    by_cases h2 : jsTruthy (detectByRange env st target).error = true
    · simp only [h2, if_pos]
      exact detectByClone_wf env st target none
    · simp only [h2, Bool.false_eq_true, if_false]
      exact detectByRange_wf env st target

theorem detectMultiple_wf (env : Env) (st : DomState) (targets : List Target) :
    ∀ r ∈ (detectMultiple env st targets).1,
      (r.error.isSome = true → r.isOverflowing = false) ∧
      (∀ e, r.error = some e → e ≠ "") := by
  intro r hr
  rw [detectMultiple_fst env st targets] at hr
  obtain ⟨t, _, ht⟩ := List.mem_map.mp hr
  rw [← ht]
  exact detect_wf env st t none

theorem observe_throws (env : Env) (st : DomState) (target : Target)
    (immediate : Bool) (debounce : Nat) (h : getElement env st target = none) :
    observe env st target immediate debounce = Except.error "Element not found" := by
  unfold observe
  rw [h]

theorem jsTruthy_range_error (env : Env) (st : DomState) (target : Target) :
    jsTruthy (detectByRange env st target).error = (detectByRange env st target).error.isSome := by
  cases he : (detectByRange env st target).error with
  | none => rfl
  | some e =>
    have hne : e ≠ "" := (detectByRange_wf env st target).2 e he
    simp [jsTruthy, bne_iff_ne, hne]

end TextOverflowDetector

namespace TextOverflowDetector

theorem detectByRange_success (env : Env) (st : DomState) (target : Target) (el : ElemData)
    (hel : getElement env st target = some el) (hch : el.childNodesLen ≠ 0)
    (hthrow : env.rangeThrows el = false) :
    detectByRange env st target = createResult
      (decide (el.offsetWidth - el.paddingLeft.getD 0 - el.paddingRight.getD 0 < env.rangeWidth el))
      none (some ((jsRound (env.rangeWidth el) : ℤ) : ℚ)) (some el.offsetWidth)
      (some ((jsRound (el.offsetWidth - el.paddingLeft.getD 0 - el.paddingRight.getD 0) : ℤ) : ℚ))
      (some ((jsRound (max 0 (env.rangeWidth el -
        (el.offsetWidth - el.paddingLeft.getD 0 - el.paddingRight.getD 0))) : ℤ) : ℚ))
      none env.now := by
  unfold detectByRange
  rw [hel]
  simp only []
  rw [if_neg hch, if_neg (show ¬ (env.rangeThrows el = true) by simp [hthrow])]

theorem detectByClone_success_fst (env : Env) (st : DomState) (target : Target) (el : ElemData)
    (text : Option String)
    (hel : getElement env st target = some el)
    (hblank : isBlank (testTextOf el text) = false)
    (hcs : env.copyStylesThrows el = false)
    (hps : env.postStyleThrows el = false) :
    (detectByClone env st target text).1 = createResult
      (decide (el.offsetWidth - el.paddingLeft.getD 0 - el.paddingRight.getD 0 <
        env.cloneWidth (cloneScratch el text)))
      none
      (some (env.cloneWidth (cloneScratch el text)))
      (some el.offsetWidth)
      (some ((jsRound (el.offsetWidth - el.paddingLeft.getD 0 - el.paddingRight.getD 0) : ℤ) : ℚ))
      (some ((jsRound (max 0 (env.cloneWidth (cloneScratch el text) -
        (el.offsetWidth - el.paddingLeft.getD 0 - el.paddingRight.getD 0))) : ℤ) : ℚ))
      (some (testTextOf el text).length) env.now := by
  unfold detectByClone
  rw [hel]
  simp only []
  rw [if_neg (show ¬ (isBlank (testTextOf el text) = true) by simp [hblank]),
      if_neg (show ¬ (env.copyStylesThrows el = true) by simp [hcs]),
      if_neg (show ¬ (env.postStyleThrows el = true) by simp [hps])]

/-- Claim C6: on every successfully measured element (both strategies),
the overflow decision is the strict comparison `textWidth >
availableWidth` where `availableWidth = offsetWidth - paddingLeft -
paddingRight`: when the measured text width is at most the available
width the result has `isOverflowing = false` and `overflowAmount = 0`;
when the available width is strictly smaller, `isOverflowing = true` and
`overflowAmount` is `Math.round(textWidth - availableWidth)`; and
`overflowAmount` is never negative. -/
theorem overflow_strict_decision (env : Env) (st : DomState) (target : Target) (el : ElemData)
    (text : Option String) (tw ctw aw : ℚ)
    (hel : getElement env st target = some el)
    (hch : el.childNodesLen ≠ 0)
    (hthrow : env.rangeThrows el = false)
    (hblank : isBlank (testTextOf el text) = false)
    (hcs : env.copyStylesThrows el = false)
    (hps : env.postStyleThrows el = false)
    (htw : tw = env.rangeWidth el)
    (hctw : ctw = env.cloneWidth (cloneScratch el text))
    (haw : aw = el.offsetWidth - el.paddingLeft.getD 0 - el.paddingRight.getD 0) :
    ((detectByRange env st target).error = none ∧
     (tw ≤ aw → (detectByRange env st target).isOverflowing = false ∧
       (detectByRange env st target).overflowAmount = some 0) ∧
     (aw < tw → (detectByRange env st target).isOverflowing = true ∧
       (detectByRange env st target).overflowAmount = some ((jsRound (tw - aw) : ℤ) : ℚ)) ∧
     (∀ q, (detectByRange env st target).overflowAmount = some q → 0 ≤ q)) ∧
    ((detectByClone env st target text).1.error = none ∧
     (ctw ≤ aw → (detectByClone env st target text).1.isOverflowing = false ∧
       (detectByClone env st target text).1.overflowAmount = some 0) ∧
     (aw < ctw → (detectByClone env st target text).1.isOverflowing = true ∧
       (detectByClone env st target text).1.overflowAmount = some ((jsRound (ctw - aw) : ℤ) : ℚ)) ∧
     (∀ q, (detectByClone env st target text).1.overflowAmount = some q → 0 ≤ q)) := by
  rw [detectByRange_success env st target el hel hch hthrow,
      detectByClone_success_fst env st target el text hel hblank hcs hps,
      ← htw, ← hctw, ← haw]
  simp only [createResult]
  constructor
  · refine ⟨trivial, ?_, ?_, ?_⟩
    · intro h
      have hmax : max 0 (tw - aw) = 0 := max_eq_left (sub_nonpos.mpr h)
      constructor
      · exact decide_eq_false (not_lt.mpr h)
      · rw [hmax, jsRound_zero]
        norm_num
    · intro h
      have hmax : max 0 (tw - aw) = tw - aw := max_eq_right (by linarith)
      constructor
      · exact decide_eq_true h
      · rw [hmax]
    · intro q hq
      have hq2 : ((jsRound (max 0 (tw - aw)) : ℤ) : ℚ) = q := by simpa using hq
      rw [← hq2]
      have hr := jsRound_nonneg (max 0 (tw - aw)) (le_max_left 0 _)
      exact_mod_cast hr
  · refine ⟨trivial, ?_, ?_, ?_⟩
    · intro h
      have hmax : max 0 (ctw - aw) = 0 := max_eq_left (sub_nonpos.mpr h)
      constructor
      · exact decide_eq_false (not_lt.mpr h)
      · rw [hmax, jsRound_zero]
        norm_num
    · intro h
      have hmax : max 0 (ctw - aw) = ctw - aw := max_eq_right (by linarith)
      constructor
      · exact decide_eq_true h
      · rw [hmax]
    · intro q hq
      have hq2 : ((jsRound (max 0 (ctw - aw)) : ℤ) : ℚ) = q := by simpa using hq
      rw [← hq2]
      have hr := jsRound_nonneg (max 0 (ctw - aw)) (le_max_left 0 _)
      exact_mod_cast hr

end TextOverflowDetector

namespace TextOverflowDetector

/-- Witness for C6: at a 100px-wide padding-free element whose text
measures 150px, the range strategy reports an overflow of
`Math.round(150 - 100)` pixels. -/
theorem overflow_strict_decision_witness :
    (100 : ℚ) < 150 ∧
    (detectByRange envB stA (Target.node 0)).isOverflowing = true ∧
    (detectByRange envB stA (Target.node 0)).overflowAmount =
      some ((jsRound ((150 : ℚ) - 100) : ℤ) : ℚ) := by
  have h := (overflow_strict_decision envB stA (Target.node 0) elA none 150 150 100
    rfl (by decide) rfl (by decide) rfl rfl rfl rfl (by simp [elA])).1.2.2.1 (by norm_num)
  exact ⟨by norm_num, h.1, h.2⟩

/-- Claim C5 (corrected): a non-empty explicit text override always
dispatches to the clone strategy (`detect` returns exactly what
`detectByClone` returns, so a clone error is returned as-is with no
fallback); with no override, `detect` returns the range result unless it
carries an error, in which case it returns `detectByClone(target)`.
(An empty-string override is falsy in JS and is treated as no override:
see the counterexample.) -/
theorem detect_dispatch (env : Env) (st : DomState) (target : Target)
    (s : String) (hs : s ≠ "") :
    detect env st target (some s) = detectByClone env st target (some s) ∧
    detect env st target none =
      (if (detectByRange env st target).error.isSome then detectByClone env st target none
       else (detectByRange env st target, st)) := by
  constructor
  · unfold detect
    have ht : jsTruthy (some s) = true := by simp [jsTruthy, bne_iff_ne, hs]
    rw [ht]
    simp
  · unfold detect
    have h0 : jsTruthy (none : Option String) = false := rfl
    rw [h0]
    simp only [Bool.false_eq_true, if_false]
    rw [jsTruthy_range_error env st target]

/-- Witness for C5: with the override `"x"`, `detect` returns the clone
strategy's result. -/
theorem detect_dispatch_witness :
    ("x" ≠ "") ∧
    detect envA stA (Target.node 0) (some "x") = detectByClone envA stA (Target.node 0) (some "x") :=
  ⟨by decide, (detect_dispatch envA stA (Target.node 0) "x" (by decide)).1⟩

/-- Claim C5 counterexample: the explicitly supplied override `""` is
falsy in JS, so `detect(target, "")` takes the range path (here: text
50px in a 100px box, no overflow) while `detectByClone(target, "")`
measures the element's own text via the clone (200px, overflow) — the
two disagree, refuting "for every explicitly supplied text override,
detect(target, text) returns detectByClone(target, text)". -/
theorem detect_empty_override_cex :
    (detect envA stA (Target.node 0) (some "")).1.isOverflowing = false ∧
    (detectByClone envA stA (Target.node 0) (some "")).1.isOverflowing = true ∧
    (detect envA stA (Target.node 0) (some "")).1 ≠
      (detectByClone envA stA (Target.node 0) (some "")).1 := by
  have h1 : (detect envA stA (Target.node 0) (some "")).1.isOverflowing = false := by
    simp [detect, jsTruthy, detectByRange, getElement, envA, stA, elA, createResult]
    norm_num
  have h2 : (detectByClone envA stA (Target.node 0) (some "")).1.isOverflowing = true := by
    simp [detectByClone, getElement, envA, stA, elA, testTextOf, jsOrOpt, jsOr, isBlank,
      createResult]
    norm_num
  refine ⟨h1, h2, ?_⟩
  intro hc
  rw [hc, h2] at h1
  simp at h1

end TextOverflowDetector

namespace TextOverflowDetector

/-- Claim C7: every measurement error — unresolvable target, blank text,
or a throwing geometry/style query — in `detectByRange`, `detectByClone`,
`detect` and `detectMultiple` is surfaced as a returned `Result` with
`isOverflowing = false` and a non-empty error string (the functions are
total, modelling that nothing propagates as an exception); whereas
`observe` on an unresolvable target raises (`Except.error`) instead of
returning a `Result`. -/
theorem errors_as_results (env : Env) (st : DomState) (target : Target) (text : Option String)
    (targets : List Target) (immediate : Bool) (debounce : Nat) :
    ((detectByRange env st target).error.isSome = true →
      (detectByRange env st target).isOverflowing = false) ∧
    (∀ e, (detectByRange env st target).error = some e → e ≠ "") ∧
    ((detectByClone env st target text).1.error.isSome = true →
      (detectByClone env st target text).1.isOverflowing = false) ∧
    (∀ e, (detectByClone env st target text).1.error = some e → e ≠ "") ∧
    ((detect env st target text).1.error.isSome = true →
      (detect env st target text).1.isOverflowing = false) ∧
    (∀ e, (detect env st target text).1.error = some e → e ≠ "") ∧
    (∀ r ∈ (detectMultiple env st targets).1,
      r.error.isSome = true → r.isOverflowing = false) ∧
    (getElement env st target = none →
      observe env st target immediate debounce = Except.error "Element not found") := by
  obtain ⟨hr1, hr2⟩ := detectByRange_wf env st target
  obtain ⟨hc1, hc2⟩ := detectByClone_wf env st target text
  obtain ⟨hd1, hd2⟩ := detect_wf env st target text
  refine ⟨hr1, hr2, hc1, hc2, hd1, hd2, ?_, ?_⟩
  · intro r hr
    exact (detectMultiple_wf env st targets r hr).1
  · intro h
    exact observe_throws env st target immediate debounce h

/-- Witness for C7: an unresolvable target gives a non-throwing error
result from `detectByRange` with `isOverflowing = false`, while `observe`
raises on it. -/
theorem errors_as_results_witness :
    (detectByRange envA stA Target.other).isOverflowing = false ∧
    observe envA stA Target.other true 100 = Except.error "Element not found" := by
  have h := errors_as_results envA stA Target.other none [] true 100
  exact ⟨h.1 rfl, h.2.2.2.2.2.2.2 rfl⟩

/-- Claim C1 evidence (code bug): starting with no scratch node attached,
a `detectByClone` call in which the post-`appendChild` style query throws
returns an error result but leaves one scratch clone attached to
`document.body` — the `catch` block checks and removes
`this._measureElement` (the never-attached template) instead of the
appended clone, so the clone leaks.  On the same input with nothing
throwing, the call detaches the clone before returning. -/
theorem detectByClone_scratch_leak :
    stA.attachedClones = 0 ∧
    (detectByClone envLeak stA (Target.node 0) none).1.error.isSome = true ∧
    (detectByClone envLeak stA (Target.node 0) none).2.attachedClones = 1 ∧
    (detectByClone envA stA (Target.node 0) none).2.attachedClones = 0 := by
  exact ⟨rfl, rfl, by decide, by decide⟩

end TextOverflowDetector

namespace ScrollbarWidthDetector

/-- Claim C10: starting with an empty cache, `getWidth(true)` measures
once, caches have the non-negative result, and every later
`getWidth(true)` returns that cached value without measuring; a
`getWidth(false)` call re-measures but leaves the cached value unchanged;
`clearCache()` empties the cache, after which `getWidth(true)` measures
again. -/
theorem getWidth_cache_spec (e1 e2 e3 : Env) (st : SBState) (w1 : ℤ)
    (h0 : st.cachedWidth = none) (hw : w1 = measureScrollbarWidth e1) :
    getWidth e1 true st = (w1, { cachedWidth := some w1 }, true) ∧
    0 ≤ w1 ∧
    getWidth e2 true { cachedWidth := some w1 } = (w1, { cachedWidth := some w1 }, false) ∧
    getWidth e2 false { cachedWidth := some w1 } =
      (measureScrollbarWidth e2, { cachedWidth := some w1 }, true) ∧
    clearCache { cachedWidth := some w1 } = { cachedWidth := none } ∧
    getWidth e3 true (clearCache { cachedWidth := some w1 }) =
      (measureScrollbarWidth e3, { cachedWidth := some (measureScrollbarWidth e3) }, true) := by
  refine ⟨?_, ?_, rfl, rfl, rfl, rfl⟩
  · simp [getWidth, h0, hw]
  · rw [hw]
    exact le_max_left 0 _

/-- Witness for C10: a 17px scrollbar is measured once and then served
from the cache even if the environment would now measure 0. -/
theorem getWidth_cache_spec_witness :
    stS.cachedWidth = none ∧
    (17 : ℤ) = measureScrollbarWidth envS1 ∧
    getWidth envS1 true stS = (17, { cachedWidth := some 17 }, true) ∧
    getWidth envS2 true { cachedWidth := some (17 : ℤ) } =
      (17, { cachedWidth := some 17 }, false) := by
  have h := getWidth_cache_spec envS1 envS2 envS1 stS 17 rfl (by decide)
  exact ⟨rfl, by decide, h.1, h.2.2.1⟩

end ScrollbarWidthDetector
